import Mathlib

/-!
Verification of the ECM (Energy Conservation Measure) derivation pipeline:
`extractBuildingInfo`, `calculateTotalCostSavings`, `calculateEnergySavings`,
`calculateDemandSavings`, `transformToTableRows` and `calculateEcmSummary`.

Numbers are modelled as rationals; the JavaScript value `Infinity`, which
arises only as the payback sentinel, is modelled by the tagged type
`JsNumber` below.  Optional fields of the TypeScript interfaces are
modelled by `Option`.
-/

/-- A JavaScript number that is either finite or the sentinel `+Infinity`. -/
inductive JsNumber where
  | fin : ℚ → JsNumber
  | inf : JsNumber
deriving DecidableEq, Repr

namespace JsNumber

/-- JavaScript addition, restricted to the values that occur here
(finite numbers and `+Infinity`). -/
def add : JsNumber → JsNumber → JsNumber
  | fin a, fin b => fin (a + b)
  | _, _ => inf

/-- JavaScript comparison `x > 0` (`Infinity > 0` is `true`). -/
def gtZero : JsNumber → Bool
  | fin a => decide (0 < a)
  | inf => true

/-- Division of a JavaScript number by a finite positive number
(this is the only use of division on paybacks in the source). -/
def divQ : JsNumber → ℚ → JsNumber
  | fin a, b => fin (a / b)
  | inf, _ => inf

end JsNumber

/-- TypeScript interface `ValueWithUnit`. -/
structure ValueWithUnit where
  value : ℚ
  unit : String
deriving DecidableEq, Repr

/-- TypeScript interface `ClimateZone` (anonymous in the source). -/
structure ClimateZone where
  scheme : String
  code : String
deriving DecidableEq, Repr

/-- TypeScript interface `SavingsEntry`. -/
structure SavingsEntry where
  fuel_type : String
  energy_savings : Option ValueWithUnit := none
  cost_savings : Option ValueWithUnit := none
  demand_savings : Option ValueWithUnit := none
  other_energy_type_label : Option String := none
deriving DecidableEq, Repr

/-- TypeScript interface `EcmData`. -/
structure EcmData where
  submitter_organization : String
  source_filename : String
  source_file_type : String
  building_name : String
  building_address : String
  zip_code : ValueWithUnit
  primary_property_type : String
  primary_property_type_area : ValueWithUnit
  gross_floor_area : ValueWithUnit
  ecm_name : String
  ecm_description : String
  ecm_additional_details : Option String := none
  ecm_status : String
  ecm_scope : String
  ecm_date_identified : Option String := none
  savings_entries : List SavingsEntry
  implementation_cost : ValueWithUnit
  incentives : Option ValueWithUnit := none
  ecm_lifetime : ValueWithUnit
  ecm_package_ids : Option (List String) := none
  site_eui_at_audit : ValueWithUnit
  audit_type : Option String := none
  audit_completion_date : Option String := none
  energystar_score_at_audit : Option ℚ := none
  audit_for_bps_compliance : Option Bool := none
  bps_covered : Option Bool := none
  bps_policy_name : Option String := none
  has_energy_savings_target : Option Bool := none
  climate_zone : Option ClimateZone := none
deriving DecidableEq, Repr

/-- TypeScript interface `BuildingInfo`. -/
structure BuildingInfo where
  building_name : String
  building_address : String
  zip_code : String
  primary_property_type : String
  gross_floor_area : ValueWithUnit
  site_eui_at_audit : ValueWithUnit
  submitter_organization : String
  climate_zone : Option ClimateZone := none
  bps_covered : Option Bool := none
  bps_policy_name : Option String := none
  has_energy_savings_target : Option Bool := none
  energystar_score_at_audit : Option ℚ := none
deriving DecidableEq, Repr

/-- TypeScript interface `EcmSummary`. -/
structure EcmSummary where
  total_ecms : ℕ
  total_implementation_cost : ℚ
  total_annual_savings : ℚ
  total_incentives : ℚ
  average_payback_period : JsNumber
  total_electricity_savings : ℚ
  total_gas_savings : ℚ
deriving DecidableEq, Repr

/-- TypeScript interface `EcmTableRow`. -/
structure EcmTableRow where
  id : String
  ecm_name : String
  ecm_status : String
  ecm_scope : String
  implementation_cost : ℚ
  annual_cost_savings : ℚ
  incentives : ℚ
  lifetime : ℚ
  simple_payback : JsNumber
  electricity_savings : ℚ
  gas_savings : ℚ
  demand_savings : ℚ
  ecm_description : String
  ecm_additional_details : Option String := none
  ecm_date_identified : Option String := none
  ecm_package_ids : Option (List String) := none
deriving DecidableEq, Repr

/-- `extractBuildingInfo` from `ecmDataTransform`: `null` on an empty
array, otherwise a projection of the first record. -/
def extractBuildingInfo (ecmData : List EcmData) : Option BuildingInfo :=
  match ecmData with
  | [] => none
  | firstEcm :: _ =>
    some
      { building_name := firstEcm.building_name
        building_address := firstEcm.building_address
        zip_code := toString firstEcm.zip_code.value
        primary_property_type := firstEcm.primary_property_type
        gross_floor_area := firstEcm.gross_floor_area
        site_eui_at_audit := firstEcm.site_eui_at_audit
        submitter_organization := firstEcm.submitter_organization
        climate_zone := firstEcm.climate_zone
        bps_covered := firstEcm.bps_covered
        bps_policy_name := firstEcm.bps_policy_name
        has_energy_savings_target := firstEcm.has_energy_savings_target
        energystar_score_at_audit := firstEcm.energystar_score_at_audit }

/-- `calculateTotalCostSavings`: if the first `"Total"` entry carries
`cost_savings`, return it; otherwise fold `cost_savings?.value || 0`
over all entries (the `reduce` of the source). -/
def calculateTotalCostSavings (savingsEntries : List SavingsEntry) : ℚ :=
  match (savingsEntries.find? (fun entry => entry.fuel_type == "Total")).bind
      (fun totalEntry => totalEntry.cost_savings) with
  | some cs => cs.value
  | none =>
    savingsEntries.foldl
      (fun sum entry => sum + ((entry.cost_savings.map (fun v => v.value)).getD 0)) 0

/-- `calculateEnergySavings`: `energy_savings?.value || 0` of the first
entry of the given fuel type. -/
def calculateEnergySavings (savingsEntries : List SavingsEntry)
    (fuelType : String) : ℚ :=
  (((savingsEntries.find? (fun e => e.fuel_type == fuelType)).bind
    (fun e => e.energy_savings)).map (fun v => v.value)).getD 0

/-- `calculateDemandSavings`: `demand_savings?.value || 0` of the first
`"Electricity"` entry. -/
def calculateDemandSavings (savingsEntries : List SavingsEntry) : ℚ :=
  (((savingsEntries.find? (fun e => e.fuel_type == "Electricity")).bind
    (fun e => e.demand_savings)).map (fun v => v.value)).getD 0

/-- The body of the `map` callback of `transformToTableRows`: builds the
table row for record `ecm` at position `index`. -/
def makeRow (index : ℕ) (ecm : EcmData) : EcmTableRow :=
  let annualCostSavings := calculateTotalCostSavings ecm.savings_entries
  let netCost := ecm.implementation_cost.value - ((ecm.incentives.map (fun v => v.value)).getD 0)
  let simplePayback :=
    if 0 < annualCostSavings then JsNumber.fin (netCost / annualCostSavings)
    else JsNumber.inf
  { id := "ecm-" ++ toString index
    ecm_name := ecm.ecm_name
    ecm_status := ecm.ecm_status
    ecm_scope := ecm.ecm_scope
    implementation_cost := ecm.implementation_cost.value
    annual_cost_savings := annualCostSavings
    incentives := (ecm.incentives.map (fun v => v.value)).getD 0
    lifetime := ecm.ecm_lifetime.value
    simple_payback := simplePayback
    electricity_savings := calculateEnergySavings ecm.savings_entries "Electricity"
    gas_savings := calculateEnergySavings ecm.savings_entries "Natural Gas"
    demand_savings := calculateDemandSavings ecm.savings_entries
    ecm_description := ecm.ecm_description
    ecm_additional_details := ecm.ecm_additional_details
    ecm_date_identified := ecm.ecm_date_identified
    ecm_package_ids := ecm.ecm_package_ids }

/-- Index-passing recursion implementing `Array.prototype.map` with the
`(ecm, index)` callback of `transformToTableRows`. -/
def transformToTableRowsAux (index : ℕ) : List EcmData → List EcmTableRow
  | [] => []
  | ecm :: rest => makeRow index ecm :: transformToTableRowsAux (index + 1) rest

/-- `transformToTableRows`: one table row per record, in input order. -/
def transformToTableRows (ecmData : List EcmData) : List EcmTableRow :=
  transformToTableRowsAux 0 ecmData

/-- The filter predicate of `validPaybacks` in `calculateEcmSummary`:
`simple_payback !== Infinity && simple_payback > 0`. -/
def isValidPayback (row : EcmTableRow) : Bool :=
  decide (row.simple_payback ≠ JsNumber.inf) && row.simple_payback.gtZero

/-- `calculateEcmSummary`: portfolio totals and the average payback over
the valid (finite, positive) paybacks, `Infinity` when none qualify. -/
def calculateEcmSummary (ecmData : List EcmData) : EcmSummary :=
  let tableRows := transformToTableRows ecmData
  let totalImplementationCost := tableRows.foldl (fun sum ecm => sum + ecm.implementation_cost) 0
  let totalAnnualSavings := tableRows.foldl (fun sum ecm => sum + ecm.annual_cost_savings) 0
  let totalIncentives := tableRows.foldl (fun sum ecm => sum + ecm.incentives) 0
  let validPaybacks := tableRows.filter isValidPayback
  let averagePaybackPeriod :=
    if 0 < validPaybacks.length then
      JsNumber.divQ
        (validPaybacks.foldl (fun sum ecm => sum.add ecm.simple_payback) (JsNumber.fin 0))
        (validPaybacks.length : ℚ)
    else JsNumber.inf
  let totalElectricitySavings := tableRows.foldl (fun sum ecm => sum + ecm.electricity_savings) 0
  let totalGasSavings := tableRows.foldl (fun sum ecm => sum + ecm.gas_savings) 0
  { total_ecms := ecmData.length
    total_implementation_cost := totalImplementationCost
    total_annual_savings := totalAnnualSavings
    total_incentives := totalIncentives
    average_payback_period := averagePaybackPeriod
    total_electricity_savings := totalElectricitySavings
    total_gas_savings := totalGasSavings }

/-! ### Specification-side helper definitions -/

/-- The cost-savings contribution of one entry: `cost_savings?.value || 0`. -/
def entryCostValue (e : SavingsEntry) : ℚ :=
  (e.cost_savings.map (fun v => v.value)).getD 0

/-- Sum of `cost_savings.value` across all entries, a missing
`cost_savings` contributing 0 (the spec's fallback formula). -/
def sumCostSavings (l : List SavingsEntry) : ℚ :=
  (l.map entryCostValue).sum

/-- The finite, strictly positive paybacks of a list of rows, in order. -/
def positiveFinitePaybacks (rows : List EcmTableRow) : List ℚ :=
  rows.filterMap (fun r =>
    match r.simple_payback with
    | JsNumber.fin q => if 0 < q then some q else none
    | JsNumber.inf => none)

/-! ### Helper lemmas -/

lemma foldl_cost_eq (l : List SavingsEntry) (a : ℚ) :
    l.foldl (fun sum entry => sum + ((entry.cost_savings.map (fun v => v.value)).getD 0)) a
      = a + sumCostSavings l := by
  induction l generalizing a with
  | nil => simp [sumCostSavings]
  | cons e t ih =>
    simp only [List.foldl_cons, ih, sumCostSavings, List.map_cons, List.sum_cons]
    rw [add_assoc]
    rfl

lemma transformToTableRowsAux_length (n : ℕ) (l : List EcmData) :
    (transformToTableRowsAux n l).length = l.length := by
  induction l generalizing n with
  | nil => rfl
  | cons x t ih => simp [transformToTableRowsAux, ih]

lemma transformToTableRowsAux_get (l : List EcmData) (n i : ℕ)
    (h : i < (transformToTableRowsAux n l).length) (h2 : i < l.length) :
    (transformToTableRowsAux n l).get ⟨i, h⟩ = makeRow (n + i) (l.get ⟨i, h2⟩) := by
  induction l generalizing n i with
  | nil => exact absurd h2 (by simp)
  | cons x t ih =>
    cases i with
    | zero => rfl
    | succ j =>
      have hj : j < (transformToTableRowsAux (n + 1) t).length := by
        simpa [transformToTableRowsAux] using h
      have hj2 : j < t.length := by simpa using h2
      simpa [transformToTableRowsAux, Nat.add_assoc, Nat.add_comm 1 j] using
        ih (n + 1) j hj hj2

lemma transformToTableRows_length (l : List EcmData) :
    (transformToTableRows l).length = l.length :=
  transformToTableRowsAux_length 0 l

lemma transformToTableRows_get (l : List EcmData) (i : ℕ)
    (h : i < (transformToTableRows l).length) (h2 : i < l.length) :
    (transformToTableRows l).get ⟨i, h⟩ = makeRow i (l.get ⟨i, h2⟩) := by
  simpa using transformToTableRowsAux_get l 0 i h h2

lemma filter_payback_length (rows : List EcmTableRow) :
    (rows.filter isValidPayback).length = (positiveFinitePaybacks rows).length := by
  induction rows with
  | nil => rfl
  | cons r t ih =>
    rcases hr : r.simple_payback with q | _
    · by_cases hq : 0 < q
      · simp [List.filter_cons, positiveFinitePaybacks, isValidPayback, hr,
          JsNumber.gtZero, hq, List.filterMap_cons] at ih ⊢
        simpa [positiveFinitePaybacks] using ih
      · simp [List.filter_cons, positiveFinitePaybacks, isValidPayback, hr,
          JsNumber.gtZero, hq, List.filterMap_cons] at ih ⊢
        simpa [positiveFinitePaybacks] using ih
    · simp [List.filter_cons, positiveFinitePaybacks, isValidPayback, hr,
        List.filterMap_cons] at ih ⊢
      simpa [positiveFinitePaybacks] using ih

lemma filter_payback_foldl (rows : List EcmTableRow) (a : ℚ) :
    (rows.filter isValidPayback).foldl
        (fun sum ecm => sum.add ecm.simple_payback) (JsNumber.fin a)
      = JsNumber.fin (a + (positiveFinitePaybacks rows).sum) := by
  induction rows generalizing a with
  | nil => simp [positiveFinitePaybacks]
  | cons r t ih =>
    rcases hr : r.simple_payback with q | _
    · by_cases hq : 0 < q
      · have hv : isValidPayback r = true := by
          simp [isValidPayback, hr, JsNumber.gtZero, hq]
        have hstep : (JsNumber.fin a).add r.simple_payback = JsNumber.fin (a + q) := by
          rw [hr]; rfl
        have hpf : positiveFinitePaybacks (r :: t) = q :: positiveFinitePaybacks t := by
          simp [positiveFinitePaybacks, List.filterMap_cons, hr, hq]
        rw [List.filter_cons, if_pos hv, List.foldl_cons, hstep, ih (a + q), hpf]
        simp [add_assoc]
      · have hv : isValidPayback r = false := by
          simp [isValidPayback, hr, JsNumber.gtZero, hq]
        have hpf : positiveFinitePaybacks (r :: t) = positiveFinitePaybacks t := by
          simp [positiveFinitePaybacks, List.filterMap_cons, hr, hq]
        rw [List.filter_cons, if_neg (by simp [hv]), ih a, hpf]
    · have hv : isValidPayback r = false := by
        simp [isValidPayback, hr]
      have hpf : positiveFinitePaybacks (r :: t) = positiveFinitePaybacks t := by
        simp [positiveFinitePaybacks, List.filterMap_cons, hr]
      rw [List.filter_cons, if_neg (by simp [hv]), ih a, hpf]

/-! ### Concrete sample data for witnesses and counterexamples -/

/-- A record with the given savings entries, implementation cost and
optional incentives; all other required fields are fixed sample values. -/
def mkEcm (entries : List SavingsEntry) (impl : ℚ) (incent : Option ℚ) : EcmData :=
  { submitter_organization := "Acme Audits"
    source_filename := "audit.pdf"
    source_file_type := "pdf"
    building_name := "HQ"
    building_address := "1 Main St"
    zip_code := ⟨98101, "zip"⟩
    primary_property_type := "Office"
    primary_property_type_area := ⟨1000, "sqft"⟩
    gross_floor_area := ⟨1000, "sqft"⟩
    ecm_name := "Measure"
    ecm_description := "a measure"
    ecm_status := "Identified"
    ecm_scope := "Building"
    savings_entries := entries
    implementation_cost := ⟨impl, "$"⟩
    incentives := incent.map (fun q => ⟨q, "$"⟩)
    ecm_lifetime := ⟨15, "yr"⟩
    site_eui_at_audit := ⟨50, "kBtu/sf"⟩ }

/-! ### Claim theorems -/

/-- C4: `extractBuildingInfo` yields the absent result exactly on empty
input, and on non-empty input every field of the projection is read from
the first record only, regardless of later records. -/
theorem C4_extract_building_info :
    (∀ l : List EcmData, extractBuildingInfo l = none ↔ l = []) ∧
    (∀ (x : EcmData) (xs ys : List EcmData),
      extractBuildingInfo (x :: xs) = extractBuildingInfo (x :: ys)) ∧
    (∀ (x : EcmData) (xs : List EcmData),
      extractBuildingInfo (x :: xs) = some
        { building_name := x.building_name
          building_address := x.building_address
          zip_code := toString x.zip_code.value
          primary_property_type := x.primary_property_type
          gross_floor_area := x.gross_floor_area
          site_eui_at_audit := x.site_eui_at_audit
          submitter_organization := x.submitter_organization
          climate_zone := x.climate_zone
          bps_covered := x.bps_covered
          bps_policy_name := x.bps_policy_name
          has_energy_savings_target := x.has_energy_savings_target
          energystar_score_at_audit := x.energystar_score_at_audit }) := by
  refine ⟨?_, ?_, ?_⟩
  · intro l
    cases l <;> simp [extractBuildingInfo]
  · intro x xs ys
    rfl
  · intro x xs
    rfl

/-- C5: `transformToTableRows` produces one row per record in input
order: the list lengths agree, the row at position `i` is derived from
the record at position `i`, and the synthetic id is determined solely by
the position. -/
theorem C5_order_preservation (l : List EcmData) :
    (transformToTableRows l).length = l.length ∧
    ∀ (i : ℕ) (h : i < (transformToTableRows l).length) (h2 : i < l.length),
      (transformToTableRows l).get ⟨i, h⟩ = makeRow i (l.get ⟨i, h2⟩) ∧
      ((transformToTableRows l).get ⟨i, h⟩).id = "ecm-" ++ toString i := by
  refine ⟨transformToTableRows_length l, ?_⟩
  intro i h h2
  have hg := transformToTableRows_get l i h h2
  exact ⟨hg, by rw [hg]; rfl⟩

/-- Witness for C5 at a concrete one-record input. -/
theorem C5_order_preservation_witness :
    ((transformToTableRows [mkEcm [] 100 none]).get
      ⟨0, by rw [transformToTableRows_length]; exact Nat.zero_lt_one⟩).id = "ecm-0" :=
  ((C5_order_preservation [mkEcm [] 100 none]).2 0
    (by rw [transformToTableRows_length]; exact Nat.zero_lt_one) Nat.zero_lt_one).2

/-- C6: a record with an empty `savings_entries` list yields a row with
`annual_cost_savings`, `electricity_savings`, `gas_savings` and
`demand_savings` all equal to 0. -/
theorem C6_empty_entries_zero (l : List EcmData) (i : ℕ)
    (h : i < (transformToTableRows l).length) (h2 : i < l.length)
    (hempty : (l.get ⟨i, h2⟩).savings_entries = []) :
    ((transformToTableRows l).get ⟨i, h⟩).annual_cost_savings = 0 ∧
    ((transformToTableRows l).get ⟨i, h⟩).electricity_savings = 0 ∧
    ((transformToTableRows l).get ⟨i, h⟩).gas_savings = 0 ∧
    ((transformToTableRows l).get ⟨i, h⟩).demand_savings = 0 := by
  rw [transformToTableRows_get l i h h2]
  rw [List.get_eq_getElem] at hempty
  refine ⟨?_, ?_, ?_, ?_⟩ <;>
    simp [makeRow, hempty, calculateTotalCostSavings, calculateEnergySavings,
      calculateDemandSavings, List.find?]

/-- Witness for C6 at a concrete record with no savings entries. -/
theorem C6_empty_entries_zero_witness :
    ((transformToTableRows [mkEcm [] 100 none]).get
      ⟨0, by rw [transformToTableRows_length]; exact Nat.zero_lt_one⟩).annual_cost_savings = 0 ∧
    ((transformToTableRows [mkEcm [] 100 none]).get
      ⟨0, by rw [transformToTableRows_length]; exact Nat.zero_lt_one⟩).electricity_savings = 0 ∧
    ((transformToTableRows [mkEcm [] 100 none]).get
      ⟨0, by rw [transformToTableRows_length]; exact Nat.zero_lt_one⟩).gas_savings = 0 ∧
    ((transformToTableRows [mkEcm [] 100 none]).get
      ⟨0, by rw [transformToTableRows_length]; exact Nat.zero_lt_one⟩).demand_savings = 0 :=
  C6_empty_entries_zero [mkEcm [] 100 none] 0
    (by rw [transformToTableRows_length]; exact Nat.zero_lt_one) Nat.zero_lt_one rfl

/-- C7: the derived demand savings comes from the first `"Electricity"`
entry's `demand_savings.value`, is 0 when no `"Electricity"` entry
exists or that entry has no `demand_savings`, and entries of other fuel
types never affect it. -/
theorem C7_demand_savings (entries : List SavingsEntry) :
    ((∀ e ∈ entries, e.fuel_type ≠ "Electricity") → calculateDemandSavings entries = 0) ∧
    (∀ e, entries.find? (fun x => x.fuel_type == "Electricity") = some e →
      (e.demand_savings = none → calculateDemandSavings entries = 0) ∧
      (∀ v, e.demand_savings = some v → calculateDemandSavings entries = v.value)) := by
  constructor
  · intro hno
    have hfind : entries.find? (fun x => x.fuel_type == "Electricity") = none := by
      rw [List.find?_eq_none]
      intro x hx
      simpa using hno x hx
    simp [calculateDemandSavings, hfind]
  · intro e hfind
    refine ⟨fun hd => ?_, fun v hd => ?_⟩
    · simp [calculateDemandSavings, hfind, hd]
    · simp [calculateDemandSavings, hfind, hd]

/-- Witness for C7: an `"Electricity"` entry carrying 7 kW alongside a
gas entry carrying a different demand figure. -/
theorem C7_demand_savings_witness :
    calculateDemandSavings
      [{ fuel_type := "Electricity", demand_savings := some ⟨7, "kW"⟩ },
       { fuel_type := "Natural Gas", demand_savings := some ⟨9, "kW"⟩ }] = 7 :=
  ((C7_demand_savings
      [{ fuel_type := "Electricity", demand_savings := some ⟨7, "kW"⟩ },
       { fuel_type := "Natural Gas", demand_savings := some ⟨9, "kW"⟩ }]).2
    { fuel_type := "Electricity", demand_savings := some ⟨7, "kW"⟩ }
    (by simp [List.find?])).2 ⟨7, "kW"⟩ rfl

/-- Entries with two `"Total"` rows: the first lacks `cost_savings`, the
last carries 5; an `"Electricity"` row carries 3. -/
def dupTotalEntries : List SavingsEntry :=
  [{ fuel_type := "Total" },
   { fuel_type := "Electricity", cost_savings := some ⟨3, "$"⟩ },
   { fuel_type := "Total", cost_savings := some ⟨5, "$"⟩ }]

/-- C1 counterexample: `dupTotalEntries` contains a `"Total"` entry whose
`cost_savings` is 5, yet the aggregator returns 8 (the fallback sum),
refuting "returns exactly X whenever some Total entry carries X". -/
theorem C1_counterexample :
    (∃ e ∈ dupTotalEntries, e.fuel_type = "Total" ∧ e.cost_savings = some ⟨5, "$"⟩) ∧
    calculateTotalCostSavings dupTotalEntries = 8 ∧ (8 : ℚ) ≠ 5 := by
  refine ⟨⟨{ fuel_type := "Total", cost_savings := some ⟨5, "$"⟩ },
    by simp [dupTotalEntries], rfl, rfl⟩, ?_, by norm_num⟩
  simp [calculateTotalCostSavings, dupTotalEntries, List.find?]
  norm_num

/-- C1 (amended): the two-tier rule keys on the first `"Total"` entry in
list order: if that entry carries `cost_savings`, its value is returned
directly regardless of the other entries; otherwise the result is the
sum of `cost_savings.value` over all entries, a missing `cost_savings`
contributing 0. -/
theorem C1_total_cost_savings (entries : List SavingsEntry) :
    (∀ te cs, entries.find? (fun e => e.fuel_type == "Total") = some te →
      te.cost_savings = some cs →
      calculateTotalCostSavings entries = cs.value) ∧
    ((entries.find? (fun e => e.fuel_type == "Total")).bind
        (fun e => e.cost_savings) = none →
      calculateTotalCostSavings entries = sumCostSavings entries) := by
  constructor
  · intro te cs hf hcs
    simp [calculateTotalCostSavings, hf, hcs]
  · intro hnone
    simp only [calculateTotalCostSavings, hnone]
    simpa using foldl_cost_eq entries 0

/-- Witness for C1: a lone authoritative `"Total"` entry is returned
directly, and a list with no `"Total"` entry falls back to the sum. -/
theorem C1_total_cost_savings_witness :
    calculateTotalCostSavings
      [{ fuel_type := "Total", cost_savings := some ⟨40, "$"⟩ },
       { fuel_type := "Electricity", cost_savings := some ⟨99, "$"⟩ }] = 40 ∧
    calculateTotalCostSavings
      [{ fuel_type := "Electricity", cost_savings := some ⟨100, "$"⟩ },
       { fuel_type := "Natural Gas", cost_savings := some ⟨50, "$"⟩ }] =
      sumCostSavings
        [{ fuel_type := "Electricity", cost_savings := some ⟨100, "$"⟩ },
         { fuel_type := "Natural Gas", cost_savings := some ⟨50, "$"⟩ }] :=
  ⟨(C1_total_cost_savings
      [{ fuel_type := "Total", cost_savings := some ⟨40, "$"⟩ },
       { fuel_type := "Electricity", cost_savings := some ⟨99, "$"⟩ }]).1
      { fuel_type := "Total", cost_savings := some ⟨40, "$"⟩ } ⟨40, "$"⟩
      (by simp [List.find?]) rfl,
   (C1_total_cost_savings
      [{ fuel_type := "Electricity", cost_savings := some ⟨100, "$"⟩ },
       { fuel_type := "Natural Gas", cost_savings := some ⟨50, "$"⟩ }]).2
      (by simp [List.find?])⟩

/-- C9: the authoritative branch is selected by presence of
`cost_savings` on the first `"Total"` entry, not by its value: a first
`"Total"` entry carrying value 0 makes the aggregator return 0, and a
first `"Total"` entry without `cost_savings` forces the fallback sum
over all entries. -/
theorem C9_total_branch_by_presence (entries : List SavingsEntry)
    (te : SavingsEntry)
    (hfind : entries.find? (fun e => e.fuel_type == "Total") = some te) :
    (∀ u, te.cost_savings = some ⟨0, u⟩ → calculateTotalCostSavings entries = 0) ∧
    (te.cost_savings = none →
      calculateTotalCostSavings entries = sumCostSavings entries) := by
  constructor
  · intro u hcs
    simp [calculateTotalCostSavings, hfind, hcs]
  · intro hcs
    have hnone : (entries.find? (fun e => e.fuel_type == "Total")).bind
        (fun e => e.cost_savings) = none := by
      rw [hfind]
      simpa using hcs
    simp only [calculateTotalCostSavings, hnone]
    simpa using foldl_cost_eq entries 0

/-- Witness for C9: a zero-valued first `"Total"` entry wins over a
positive `"Electricity"` entry, and a bare first `"Total"` entry forces
the sum (which here includes a later `"Total"` entry's 7). -/
theorem C9_total_branch_by_presence_witness :
    calculateTotalCostSavings
      [{ fuel_type := "Total", cost_savings := some ⟨0, "$"⟩ },
       { fuel_type := "Electricity", cost_savings := some ⟨100, "$"⟩ }] = 0 ∧
    calculateTotalCostSavings
      [{ fuel_type := "Total" },
       { fuel_type := "Electricity", cost_savings := some ⟨100, "$"⟩ },
       { fuel_type := "Total", cost_savings := some ⟨7, "$"⟩ }] =
      sumCostSavings
        [{ fuel_type := "Total" },
         { fuel_type := "Electricity", cost_savings := some ⟨100, "$"⟩ },
         { fuel_type := "Total", cost_savings := some ⟨7, "$"⟩ }] :=
  ⟨(C9_total_branch_by_presence
      [{ fuel_type := "Total", cost_savings := some ⟨0, "$"⟩ },
       { fuel_type := "Electricity", cost_savings := some ⟨100, "$"⟩ }]
      { fuel_type := "Total", cost_savings := some ⟨0, "$"⟩ }
      (by simp [List.find?])).1 "$" rfl,
   (C9_total_branch_by_presence
      [{ fuel_type := "Total" },
       { fuel_type := "Electricity", cost_savings := some ⟨100, "$"⟩ },
       { fuel_type := "Total", cost_savings := some ⟨7, "$"⟩ }]
      { fuel_type := "Total" }
      (by simp [List.find?])).2 rfl⟩

/-- C10: when fuel-type labels repeat, the per-fuel energy lookup and
the demand lookup read only the first matching entry (later duplicates
are ignored), while the no-`"Total"` cost fallback sums every entry, so
duplicates double-count in annual cost savings only. -/
theorem C10_duplicate_fuel_entries (e : SavingsEntry) (rest : List SavingsEntry)
    (f : String) :
    (e.fuel_type = f →
      calculateEnergySavings (e :: rest) f =
        ((e.energy_savings.map (fun v => v.value)).getD 0)) ∧
    (e.fuel_type = "Electricity" →
      calculateDemandSavings (e :: rest) =
        ((e.demand_savings.map (fun v => v.value)).getD 0)) ∧
    ((∀ x ∈ e :: rest, x.fuel_type ≠ "Total") →
      calculateTotalCostSavings (e :: rest) = sumCostSavings (e :: rest)) := by
  refine ⟨fun hf => ?_, fun hf => ?_, fun hno => ?_⟩
  · have hfind : (e :: rest).find? (fun x => x.fuel_type == f) = some e :=
      List.find?_cons_of_pos rest (by simp [hf])
    simp [calculateEnergySavings, hfind]
  · have hfind : (e :: rest).find? (fun x => x.fuel_type == "Electricity") = some e :=
      List.find?_cons_of_pos rest (by simp [hf])
    simp [calculateDemandSavings, hfind]
  · have hfind : (e :: rest).find? (fun x => x.fuel_type == "Total") = none := by
      rw [List.find?_eq_none]
      intro x hx
      simpa using hno x hx
    simp only [calculateTotalCostSavings, hfind, Option.bind]
    simpa using foldl_cost_eq (e :: rest) 0

/-- A duplicated `"Electricity"` entry used in the C10 witness. -/
def dupElec : SavingsEntry :=
  { fuel_type := "Electricity"
    energy_savings := some ⟨2, "kWh"⟩
    cost_savings := some ⟨5, "$"⟩
    demand_savings := some ⟨1, "kW"⟩ }

/-- Witness for C10: with two identical `"Electricity"` entries, energy
and demand savings read the first entry only (2 and 1, not 4 and 2),
while the cost fallback sums both (10). -/
theorem C10_duplicate_fuel_entries_witness :
    calculateEnergySavings [dupElec, dupElec] "Electricity" = 2 ∧
    calculateDemandSavings [dupElec, dupElec] = 1 ∧
    calculateTotalCostSavings [dupElec, dupElec] = sumCostSavings [dupElec, dupElec] ∧
    sumCostSavings [dupElec, dupElec] = 10 :=
  ⟨by
    have h := (C10_duplicate_fuel_entries dupElec [dupElec] "Electricity").1 rfl
    simpa [dupElec] using h,
   by
    have h := (C10_duplicate_fuel_entries dupElec [dupElec] "Electricity").2.1 rfl
    simpa [dupElec] using h,
   by
    exact (C10_duplicate_fuel_entries dupElec [dupElec] "Electricity").2.2
      (by
        intro x hx
        simp only [List.mem_cons, List.not_mem_nil, or_false] at hx
        rcases hx with rfl | rfl <;> simp [dupElec]),
   by
    simp [sumCostSavings, entryCostValue, dupElec]
    norm_num⟩

/-- C2: each row's implementation cost and incentives come from the
record (0 when incentives is absent), and the payback is the net cost
(implementation cost minus incentives) divided by the annual cost
savings when the latter is positive, `Infinity` otherwise; a negative
net cost with positive savings gives a negative finite payback. -/
theorem C2_net_cost_payback (l : List EcmData) (i : ℕ)
    (h : i < (transformToTableRows l).length) (h2 : i < l.length) :
    ((transformToTableRows l).get ⟨i, h⟩).implementation_cost
        = (l.get ⟨i, h2⟩).implementation_cost.value ∧
    ((transformToTableRows l).get ⟨i, h⟩).incentives
        = (((l.get ⟨i, h2⟩).incentives.map (fun v => v.value)).getD 0) ∧
    ((transformToTableRows l).get ⟨i, h⟩).simple_payback
        = (if 0 < ((transformToTableRows l).get ⟨i, h⟩).annual_cost_savings then
            JsNumber.fin
              ((((transformToTableRows l).get ⟨i, h⟩).implementation_cost
                - ((transformToTableRows l).get ⟨i, h⟩).incentives)
                / ((transformToTableRows l).get ⟨i, h⟩).annual_cost_savings)
          else JsNumber.inf) := by
  rw [transformToTableRows_get l i h h2]
  exact ⟨rfl, rfl, rfl⟩

/-- Record with implementation cost 1000, incentives 1500 and an
authoritative annual cost savings of 100 (the negative-payback sample). -/
def payEcm : EcmData :=
  mkEcm [{ fuel_type := "Total", cost_savings := some ⟨100, "$"⟩ }] 1000 (some 1500)

/-- Witness for C2: `payEcm` yields the negative finite payback -5. -/
theorem C2_net_cost_payback_witness :
    ((transformToTableRows [payEcm]).get
      ⟨0, by rw [transformToTableRows_length]; exact Nat.zero_lt_one⟩).simple_payback
      = JsNumber.fin (-5) := by
  obtain ⟨h1, hi, h3⟩ := C2_net_cost_payback [payEcm] 0
    (by rw [transformToTableRows_length]; exact Nat.zero_lt_one) Nat.zero_lt_one
  have hget : (transformToTableRows [payEcm]).get
      ⟨0, by rw [transformToTableRows_length]; exact Nat.zero_lt_one⟩ = makeRow 0 payEcm :=
    transformToTableRows_get [payEcm] 0
      (by rw [transformToTableRows_length]; exact Nat.zero_lt_one) Nat.zero_lt_one
  have hacs : (makeRow 0 payEcm).annual_cost_savings = 100 := by
    simp [makeRow, payEcm, mkEcm, calculateTotalCostSavings, List.find?]
  have himpl : (makeRow 0 payEcm).implementation_cost = 1000 := by
    simp [makeRow, payEcm, mkEcm]
  have hinc : (makeRow 0 payEcm).incentives = 1500 := by
    simp [makeRow, payEcm, mkEcm]
  rw [h3, hget, hacs, himpl, hinc]
  norm_num

/-- Record with the given implementation cost and an authoritative
annual cost savings, no incentives. -/
def ecmPay (impl save : ℚ) : EcmData :=
  mkEcm [{ fuel_type := "Total", cost_savings := some ⟨save, "$"⟩ }] impl none

/-- Three records whose paybacks are 2, `Infinity` and 4. -/
def paybackSample : List EcmData := [ecmPay 2 1, ecmPay 1 0, ecmPay 4 1]

/-- C3: the summary's average payback is the arithmetic mean of the
finite, strictly positive paybacks, and `Infinity` when no row
qualifies; rows with paybacks 2, `Infinity`, 4 average to 3. -/
theorem C3_average_payback :
    (∀ l : List EcmData,
      (calculateEcmSummary l).average_payback_period =
        (if positiveFinitePaybacks (transformToTableRows l) = [] then JsNumber.inf
         else JsNumber.fin ((positiveFinitePaybacks (transformToTableRows l)).sum
            / ((positiveFinitePaybacks (transformToTableRows l)).length : ℚ)))) ∧
    (calculateEcmSummary paybackSample).average_payback_period = JsNumber.fin 3 := by
  have hmain : ∀ l : List EcmData,
      (calculateEcmSummary l).average_payback_period =
        (if positiveFinitePaybacks (transformToTableRows l) = [] then JsNumber.inf
         else JsNumber.fin ((positiveFinitePaybacks (transformToTableRows l)).sum
            / ((positiveFinitePaybacks (transformToTableRows l)).length : ℚ))) := by
    intro l
    show (if 0 < ((transformToTableRows l).filter isValidPayback).length then
        JsNumber.divQ
          (((transformToTableRows l).filter isValidPayback).foldl
            (fun sum ecm => sum.add ecm.simple_payback) (JsNumber.fin 0))
          (((transformToTableRows l).filter isValidPayback).length : ℚ)
      else JsNumber.inf) = _
    rw [filter_payback_foldl (transformToTableRows l) 0,
      filter_payback_length (transformToTableRows l)]
    by_cases hnil : positiveFinitePaybacks (transformToTableRows l) = []
    · simp [hnil]
    · have hpos : 0 < (positiveFinitePaybacks (transformToTableRows l)).length :=
        List.length_pos.mpr hnil
      rw [if_pos hpos, if_neg hnil]
      simp [JsNumber.divQ]
  refine ⟨hmain, ?_⟩
  have h0 : (makeRow 0 (ecmPay 2 1)).simple_payback = JsNumber.fin 2 := by
    simp [makeRow, ecmPay, mkEcm, calculateTotalCostSavings, List.find?]
  have h1 : (makeRow 1 (ecmPay 1 0)).simple_payback = JsNumber.inf := by
    simp [makeRow, ecmPay, mkEcm, calculateTotalCostSavings, List.find?]
  have h2 : (makeRow 2 (ecmPay 4 1)).simple_payback = JsNumber.fin 4 := by
    simp [makeRow, ecmPay, mkEcm, calculateTotalCostSavings, List.find?]
  have hrows : transformToTableRows paybackSample =
      [makeRow 0 (ecmPay 2 1), makeRow 1 (ecmPay 1 0), makeRow 2 (ecmPay 4 1)] := rfl
  have hpf : positiveFinitePaybacks (transformToTableRows paybackSample) = [2, 4] := by
    rw [hrows]
    simp [positiveFinitePaybacks, List.filterMap_cons, h0, h1, h2]
  rw [hmain paybackSample, hpf, if_neg (by simp)]
  norm_num

/-- C8: with required fields present (enforced by the types), the three
entry points are total: building extraction returns an (optional) value
that is present exactly on non-empty input, the row transform returns
one row per record for every input, and the summary is defined for every
input, including the empty list, where its average is the sentinel. -/
theorem C8_totality (l : List EcmData) :
    (∃ b : Option BuildingInfo, extractBuildingInfo l = b ∧ (b.isSome ↔ l ≠ [])) ∧
    (transformToTableRows l).length = l.length ∧
    (calculateEcmSummary l).total_ecms = l.length ∧
    (calculateEcmSummary []).average_payback_period = JsNumber.inf := by
  refine ⟨⟨extractBuildingInfo l, rfl, ?_⟩, transformToTableRows_length l, rfl, rfl⟩
  cases l <;> simp [extractBuildingInfo]
